import Mathlib

/-!
Shallow embedding of the next-prayer countdown and schedule-resolution core of
the PrayerTimes web application (source files: the monolithic script, here
called "script.js", and the modular `js/ui.js` / `js/utils.js`, whose
resolver and countdown logic is identical except that only the monolithic
version triggers the athan audio from the countdown tick).

Strings are modelled with Lean `String` (a list of characters); the JavaScript
string operations used by the source (`split` with a one-character separator,
`Number(...)`, `parseInt(..., 10)`, `padStart(2, '0')`, template
concatenation) are embedded as the executable functions below, faithful on the
inputs that occur in this program: strings without leading whitespace or sign
characters.
-/

/-- The six prayer identifiers, in the fixed chronological order used by the
source (`prayerOrder` in `updateNextPrayer`). -/
inductive PrayerId where
  | fajr
  | sunrise
  | dhuhr
  | asr
  | maghrib
  | isha
deriving DecidableEq, Repr, Fintype

open PrayerId

/-- The array literal `['fajr', 'sunrise', 'dhuhr', 'asr', 'maghrib', 'isha']`
from `updateNextPrayer`. -/
def prayerOrder : List PrayerId := [fajr, sunrise, dhuhr, asr, maghrib, isha]

/-- Splitting a character list at every occurrence of `sep`, mirroring
JavaScript `String.prototype.split` with a single-character separator:
`"".split(c)` is `[""]`, `"a b".split(' ')` is `["a", "b"]`. -/
def splitOnChar (sep : Char) : List Char → List (List Char)
  | [] => [[]]
  | c :: cs =>
    match splitOnChar sep cs with
    | [] => [[]]
    | w :: ws => if c = sep then [] :: w :: ws else (c :: w) :: ws

/-- JavaScript `s.split(sep)` for a one-character separator. -/
def jsSplit (sep : Char) (s : String) : List String :=
  (splitOnChar sep s.data).map (fun cs => String.mk cs)

/-- Accumulating decimal digit evaluation; `none` as soon as a non-digit
character is met (the NaN outcome). -/
def digitsValAux : List Char → Nat → Option Nat
  | [], acc => some acc
  | c :: cs, acc =>
    if c.isDigit then digitsValAux cs (10 * acc + (c.toNat - 48)) else none

/-- JavaScript `Number(s)` restricted to the strings this program feeds it
(no leading whitespace or sign): the empty string evaluates to `0`, a string
of decimal digits to its value, anything else to NaN (modelled as `none`). -/
def jsNumber (s : String) : Option Nat :=
  digitsValAux s.data 0

/-- JavaScript `parseInt(s, 10)` restricted likewise: the longest leading run
of decimal digits is evaluated; if there is none the result is NaN
(modelled as `none`). -/
def jsParseInt (s : String) : Option Nat :=
  match s.data.takeWhile (fun c => c.isDigit) with
  | [] => none
  | ds => digitsValAux ds 0

/-- JavaScript `n.toString().padStart(2, '0')` for a natural number. -/
def pad2 (n : Nat) : String :=
  let s := toString n
  if s.length < 2 then "0" ++ s else s

/-- `formatTime` (utils.js lines 11-16 / script.js lines 293-298) applied to
the hour/minute pair obtained from splitting the 24-hour string `"HH:MM"` and
mapping `Number` over the fields: the 12-hour display string with the Arabic
period marker.  JavaScript `hours % 12 || 12` maps a zero remainder to 12. -/
def formatTime (hours minutes : Nat) : String :=
  let period := if hours ≥ 12 then "م" else "ص"
  let hours12 := if hours % 12 = 0 then 12 else hours % 12
  toString hours12 ++ ":" ++ pad2 minutes ++ " " ++ period

/-- The 12-hour-to-24-hour adjustment shared by `updateNextPrayer` and
`updateCountdown`:
`if (period === 'م' && hours < 12) hours += 12;`
`if (period === 'ص' && hours === 12) hours = 0;`. -/
def parsePeriodAdjust (h : Nat) (period : Option String) : Nat :=
  let h1 := if period = some "م" ∧ h < 12 then h + 12 else h
  if period = some "ص" ∧ h1 = 12 then 0 else h1

/-- The parsing steps of `updateNextPrayer` on one stored display string:
`const [time, period] = str.split(' ');`
`let [hours, minutes] = time.split(':').map(Number);`
followed by the period adjustment; `none` when either field is NaN
(a missing `minutes` field from a string without `':'` is also NaN). -/
def parseClockString (s : String) : Option (Nat × Nat) :=
  let parts := jsSplit ' ' s
  let tparts := jsSplit ':' (parts.headD "")
  match jsNumber (tparts.headD ""), (tparts[1]?).bind jsNumber with
  | some h, some m => some (parsePeriodAdjust h parts[1]?, m)
  | _, _ => none

/-- Same parsing steps as applied by `updateCountdown`, which uses
`parseInt(hoursStr, 10)` / `parseInt(minutesStr, 10)` instead of `Number`. -/
def parseClockInt (s : String) : Option (Nat × Nat) :=
  let parts := jsSplit ' ' s
  let tparts := jsSplit ':' (parts.headD "")
  match jsParseInt (tparts.headD ""), (tparts[1]?).bind jsParseInt with
  | some h, some m => some (parsePeriodAdjust h parts[1]?, m)
  | _, _ => none

/-- `hours * 60 + minutes`: the linear minutes-since-midnight value
`updateNextPrayer` compares against the current time. -/
def parseMinutes (s : String) : Option Nat :=
  (parseClockString s).map (fun hm => hm.1 * 60 + hm.2)

/-- One loop iteration test of `updateNextPrayer`'s scan over `prayerOrder`:
the identifier is skipped when its entry is absent (`!prayerTimes[prayer]`,
which is also true for the empty string), and the comparison
`prayerTimeInMinutes > currentTime` is false when a parse produced NaN. -/
def prayerSelectable (prayerTimes : PrayerId → Option String)
    (currentTime : Nat) (p : PrayerId) : Bool :=
  match prayerTimes p with
  | none => false
  | some s =>
    if s = "" then false
    else
      match parseMinutes s with
      | some t => decide (currentTime < t)
      | none => false

/-- The scan of `updateNextPrayer` (script.js lines 314-338): the first
identifier in `prayerOrder` whose stored time is strictly later than
`currentTime`, defaulting to `fajr` when none is. -/
def nextPrayerOf (prayerTimes : PrayerId → Option String)
    (currentTime : Nat) : PrayerId :=
  (prayerOrder.find? (prayerSelectable prayerTimes currentTime)).getD fajr

/-- The current-prayer computation of `updateNextPrayer`:
`const i = prayerOrder.indexOf(nextPrayerName);`
`const currentPrayerName = i === 0 ? 'isha' : prayerOrder[i - 1];`. -/
def currentFromNext (p : PrayerId) : PrayerId :=
  let idx := prayerOrder.indexOf p
  if idx = 0 then isha else (prayerOrder[idx - 1]?).getD isha

/-- The pair of identifiers `updateNextPrayer` resolves: `next` drives the
display name and countdown, `current` receives the active highlight. -/
structure NextPrayerResult where
  next : PrayerId
  current : PrayerId
deriving DecidableEq, Repr

/-- `updateNextPrayer` (script.js lines 304-367 / ui.js lines 89-147),
restricted to its resolver core: `currentTime` is
`now.getHours() * 60 + now.getMinutes()`. -/
def updateNextPrayer (prayerTimes : PrayerId → Option String)
    (currentTime : Nat) : NextPrayerResult :=
  { next := nextPrayerOf prayerTimes currentTime
    current := currentFromNext (nextPrayerOf prayerTimes currentTime) }

/-- `formatTimeRemaining` (utils.js lines 23-33 / script.js lines 391-397):
zero-padded `HH:MM:SS` from a non-negative number of seconds (the source's
contract; its callers pass the wrapped remaining time, which is
non-negative). -/
def formatTimeRemaining (seconds : Nat) : String :=
  pad2 (seconds / 3600) ++ ":" ++ pad2 (seconds % 3600 / 60) ++ ":" ++
    pad2 (seconds % 60)

/-- The remaining-time computation of `updateCountdown`:
`let timeRemaining = prayerTimeInSeconds - currentTime;`
`if (timeRemaining < 0) timeRemaining += 24 * 3600;`. -/
def remainingSeconds (target now : Int) : Int :=
  let d := target - now
  if d < 0 then d + 86400 else d

/-- The observable outcome of one `updateCountdown` call: the write to the
countdown element (`none` when the element is left untouched), the boolean
return value, and whether `playAthan()` was invoked on this tick. -/
structure TickResult where
  display : Option String
  success : Bool
  athan : Bool
deriving DecidableEq, Repr

/-- The failure outcome that writes the sentinel text. -/
def sentinelTick : TickResult :=
  { display := some "--:--:--", success := false, athan := false }

/-- `updateCountdown` (script.js lines 403-459 / ui.js lines 166-205):
`nowH`, `nowM`, `nowS` are `now.getHours()`, `now.getMinutes()`,
`now.getSeconds()` (so 0-23 / 0-59 / 0-59 for a real clock reading).  A
missing or empty entry for the next prayer writes the sentinel `--:--:--`
and returns false; a NaN hour or minute returns false without touching the
display; otherwise the wrapped remaining time is formatted and, in the
monolithic version, `playAthan()` is invoked when
`timeRemaining <= 60 && timeRemaining > 0 && isAudioEnabled` (the last
field is always false in the `ui.js` version, which has no athan call). -/
def updateCountdown (prayerTimes : PrayerId → Option String)
    (nextPrayer : Option PrayerId) (nowH nowM nowS : Nat)
    (isAudioEnabled : Bool) : TickResult :=
  let currentTime : Int := nowH * 3600 + nowM * 60 + nowS
  match nextPrayer with
  | none => sentinelTick
  | some np =>
    match prayerTimes np with
    | none => sentinelTick
    | some prayerTimeStr =>
      if prayerTimeStr = "" then sentinelTick
      else
        match parseClockInt prayerTimeStr with
        | none => { display := none, success := false, athan := false }
        | some (h, m) =>
          let prayerTimeInSeconds : Int := h * 3600 + m * 60
          let timeRemaining := remainingSeconds prayerTimeInSeconds currentTime
          { display := some (formatTimeRemaining timeRemaining.toNat)
            success := true
            athan := (decide (timeRemaining ≤ 60) &&
              decide (0 < timeRemaining)) && isAudioEnabled }

/-- A schedule whose six entries are the formatted times of the given
hour/minute pairs, as `updatePrayerTimes` builds `prayerTimes` from the six
API timing strings via `formatTime`. -/
def schedOf (times : PrayerId → Nat × Nat) : PrayerId → Option String :=
  fun p => some (formatTime (times p).1 (times p).2)

/-- Minutes since midnight of an hour/minute pair. -/
def minutesOf (hm : Nat × Nat) : Nat := hm.1 * 60 + hm.2

/-- All six hour/minute pairs denote clock times (hour 0-23, minute 0-59). -/
def Bounded (times : PrayerId → Nat × Nat) : Prop :=
  ∀ p, (times p).1 < 24 ∧ (times p).2 < 60

/-- Well-formed day schedule with strictly increasing times, the reading of
the specification's "all six entries present and strictly non-decreasing"
under which consecutive prayers never share a minute. -/
def WellFormedStrict (times : PrayerId → Nat × Nat) : Prop :=
  Bounded times ∧
  minutesOf (times fajr) < minutesOf (times sunrise) ∧
  minutesOf (times sunrise) < minutesOf (times dhuhr) ∧
  minutesOf (times dhuhr) < minutesOf (times asr) ∧
  minutesOf (times asr) < minutesOf (times maghrib) ∧
  minutesOf (times maghrib) < minutesOf (times isha)

/-- Well-formed day schedule with non-decreasing times. -/
def WellFormedMono (times : PrayerId → Nat × Nat) : Prop :=
  Bounded times ∧
  minutesOf (times fajr) ≤ minutesOf (times sunrise) ∧
  minutesOf (times sunrise) ≤ minutesOf (times dhuhr) ∧
  minutesOf (times dhuhr) ≤ minutesOf (times asr) ∧
  minutesOf (times asr) ≤ minutesOf (times maghrib) ∧
  minutesOf (times maghrib) ≤ minutesOf (times isha)

/-- Positional successor in the fixed order, wrapping to `fajr` after `isha`
(the claims' phrase "the prayer after P in the fixed order"). -/
def cyclicSucc : PrayerId → PrayerId
  | fajr => sunrise
  | sunrise => dhuhr
  | dhuhr => asr
  | asr => maghrib
  | maghrib => isha
  | isha => fajr

/-- Positional predecessor in the fixed order, wrapping to `isha` before
`fajr` (the claims' phrase "the positional predecessor of next"). -/
def cyclicPred : PrayerId → PrayerId
  | fajr => isha
  | sunrise => fajr
  | dhuhr => sunrise
  | asr => dhuhr
  | maghrib => asr
  | isha => maghrib


/-- What one `startCountdown` call emits before returning: the immediate
`updateCountdown()` tick, then the registration of the repeating timer. -/
inductive TickEvent where
  | immediateTick : TickEvent
  | scheduled : Nat → TickEvent
deriving DecidableEq, Repr

/-- The timer environment of the countdown: the set of live repeating timers
(browser `setInterval` ids, which are positive integers), a fresh-id counter,
and the module-level `countdownInterval` handle (`none` models `null`; the
`if (countdownInterval)` falsy test coincides with a null test because
browser interval ids are never 0). -/
structure TimerState where
  active : List Nat
  nextId : Nat
  handle : Option Nat
deriving DecidableEq, Repr

/-- `clearInterval(id)`: the repeating timer with this id stops existing. -/
def clearIntervalOp (s : TimerState) (id : Nat) : TimerState :=
  { s with active := s.active.erase id }

/-- `setInterval(updateCountdown, 1000)`: a fresh repeating timer is
registered and its id returned. -/
def setIntervalOp (s : TimerState) : Nat × TimerState :=
  (s.nextId,
   { s with active := s.active ++ [s.nextId], nextId := s.nextId + 1 })

/-- `startCountdown` (script.js lines 466-476 / ui.js lines 153-160) as a
transition on the timer environment:
`if (countdownInterval) clearInterval(countdownInterval);`
`updateCountdown();`
`countdownInterval = setInterval(updateCountdown, 1000);`
also returning the emitted events in order. -/
def startCountdown (s : TimerState) : List TickEvent × TimerState :=
  let s1 := match s.handle with
    | some id => clearIntervalOp s id
    | none => s
  let r := setIntervalOp s1
  ([TickEvent.immediateTick, TickEvent.scheduled r.1],
   { r.2 with handle := some r.1 })

/-- Page state before any countdown has started: no live timer,
`countdownInterval = null`; ids start at 1 as in a browser. -/
def initialTimerState : TimerState := { active := [], nextId := 1, handle := none }

/-- The timer environment after `n` successive `startCountdown` calls. -/
def runStarts : Nat → TimerState
  | 0 => initialTimerState
  | n + 1 => (startCountdown (runStarts n)).2

/-- The concurrency invariant of the ticker: the live repeating timers are
exactly the one held by `countdownInterval` (or none at all). -/
def TimerInv (s : TimerState) : Prop :=
  match s.handle with
  | some id => s.active = [id]
  | none => s.active = []

/-- Schedule used for the C1 evaluation: only `fajr`, at 01:00. -/
def c1sched : PrayerId → Option String :=
  fun p => if p = fajr then some (formatTime 1 0) else none

/-- Schedule with an unparseable entry for `isha`. -/
def badSched : PrayerId → Option String :=
  fun p => if p = isha then some "xx:yy م" else none

/-- A concrete well-formed set of prayer times used by witnesses:
fajr 05:00, sunrise 06:30, dhuhr 12:00, asr 15:30, maghrib 18:00,
isha 19:30. -/
def sampleTimes : PrayerId → Nat × Nat
  | fajr => (5, 0)
  | sunrise => (6, 30)
  | dhuhr => (12, 0)
  | asr => (15, 30)
  | maghrib => (18, 0)
  | isha => (19, 30)

/-- Schedule whose every entry reads 00:05, used for the countdown
wraparound witness. -/
def sched0005 : PrayerId → Option String :=
  fun _ => some (formatTime 0 5)

/-! ## Helper lemmas -/

set_option maxHeartbeats 1000000 in
/-- Finite verification of the formatter/parser round trip over the whole
clock domain, for both the `Number`-based and the `parseInt`-based parser,
together with non-emptiness of the formatted string. -/
theorem formatTime_parse_all :
    ∀ h < 24, ∀ m < 60,
      parseClockString (formatTime h m) = some (h, m) ∧
      parseClockInt (formatTime h m) = some (h, m) ∧
      formatTime h m ≠ "" := by decide

theorem parseClockString_formatTime {h m : Nat} (hh : h < 24) (hm : m < 60) :
    parseClockString (formatTime h m) = some (h, m) :=
  (formatTime_parse_all h hh m hm).1

theorem parseClockInt_formatTime {h m : Nat} (hh : h < 24) (hm : m < 60) :
    parseClockInt (formatTime h m) = some (h, m) :=
  (formatTime_parse_all h hh m hm).2.1

theorem formatTime_ne_empty {h m : Nat} (hh : h < 24) (hm : m < 60) :
    formatTime h m ≠ "" :=
  (formatTime_parse_all h hh m hm).2.2

theorem parseMinutes_formatTime {h m : Nat} (hh : h < 24) (hm : m < 60) :
    parseMinutes (formatTime h m) = some (h * 60 + m) := by
  unfold parseMinutes
  rw [parseClockString_formatTime hh hm]
  rfl

theorem prayerSelectable_schedOf (times : PrayerId → Nat × Nat)
    (hb : Bounded times) (t : Nat) (q : PrayerId) :
    prayerSelectable (schedOf times) t q = decide (t < minutesOf (times q)) := by
  have h0 : prayerSelectable (schedOf times) t q =
      (if formatTime (times q).1 (times q).2 = "" then false
       else
         match parseMinutes (formatTime (times q).1 (times q).2) with
         | some v => decide (t < v)
         | none => false) := rfl
  rw [h0, if_neg (formatTime_ne_empty (hb q).1 (hb q).2),
    parseMinutes_formatTime (hb q).1 (hb q).2]
  rfl

theorem find_next_schedOf (times : PrayerId → Nat × Nat)
    (hb : Bounded times) (t : Nat) :
    prayerOrder.find? (prayerSelectable (schedOf times) t) =
      (if t < minutesOf (times fajr) then some fajr
       else if t < minutesOf (times sunrise) then some sunrise
       else if t < minutesOf (times dhuhr) then some dhuhr
       else if t < minutesOf (times asr) then some asr
       else if t < minutesOf (times maghrib) then some maghrib
       else if t < minutesOf (times isha) then some isha
       else none) := by
  have e := prayerSelectable_schedOf times hb t
  simp only [prayerOrder, List.find?, e]
  by_cases c0 : t < minutesOf (times fajr)
  · simp [c0]
  · by_cases c1 : t < minutesOf (times sunrise)
    · simp [c0, c1]
    · by_cases c2 : t < minutesOf (times dhuhr)
      · simp [c0, c1, c2]
      · by_cases c3 : t < minutesOf (times asr)
        · simp [c0, c1, c2, c3]
        · by_cases c4 : t < minutesOf (times maghrib)
          · simp [c0, c1, c2, c3, c4]
          · by_cases c5 : t < minutesOf (times isha)
            · simp [c0, c1, c2, c3, c4, c5]
            · simp [c0, c1, c2, c3, c4, c5]

theorem mem_prayerOrder (p : PrayerId) : p ∈ prayerOrder := by
  cases p <;> decide

theorem currentFromNext_eq_cyclicPred (p : PrayerId) :
    currentFromNext p = cyclicPred p := by
  cases p <;> rfl

/-! ## Claim theorems -/

/-- Claim C5: the 12-hour formatter and the parsing rule are exact inverses:
for every hour in 0-23 and minute in 0-59, formatting with the Arabic
period marker and parsing back (evening marker with hour below 12 adds 12;
morning marker with hour equal to 12 resets to 0) returns the original
hour/minute pair. -/
theorem claim_C5_roundtrip (h m : Nat) (hh : h < 24) (hm : m < 60) :
    parseClockString (formatTime h m) = some (h, m) :=
  parseClockString_formatTime hh hm

/-- Witness for C5 at hour 13, minute 5. -/
theorem claim_C5_roundtrip_witness :
    13 < 24 ∧ 5 < 60 ∧ parseClockString (formatTime 13 5) = some (13, 5) :=
  ⟨by decide, by decide, claim_C5_roundtrip 13 5 (by decide) (by decide)⟩

/-- Claim C10: for every schedule and every current time, the resolved next
prayer is one of the six fixed identifiers and the highlighted current
prayer is its positional predecessor in the fixed order (isha when next is
fajr), regardless of whether the predecessor's own entry is present. -/
theorem claim_C10_closure (prayerTimes : PrayerId → Option String)
    (currentTime : Nat) :
    (updateNextPrayer prayerTimes currentTime).next ∈ prayerOrder ∧
    (updateNextPrayer prayerTimes currentTime).current =
      cyclicPred (updateNextPrayer prayerTimes currentTime).next := by
  refine ⟨mem_prayerOrder _, ?_⟩
  exact currentFromNext_eq_cyclicPred (nextPrayerOf prayerTimes currentTime)

/-- Claim C8: the scan never selects a missing, empty or unparseable entry:
whatever the resolver returns as next either has an entry that parses to a
time strictly later than the current time, or nothing was selectable (all
entries skipped, in particular for the empty schedule) and the resolver
defaulted to fajr. -/
theorem claim_C8_skip_malformed (prayerTimes : PrayerId → Option String)
    (currentTime : Nat) :
    (∃ s v, prayerTimes (updateNextPrayer prayerTimes currentTime).next = some s ∧
      parseMinutes s = some v ∧ currentTime < v) ∨
    ((∀ p, prayerSelectable prayerTimes currentTime p = false) ∧
      (updateNextPrayer prayerTimes currentTime).next = fajr) := by
  have hnext : (updateNextPrayer prayerTimes currentTime).next =
      (prayerOrder.find? (prayerSelectable prayerTimes currentTime)).getD fajr := rfl
  cases hf : prayerOrder.find? (prayerSelectable prayerTimes currentTime) with
  | none =>
    right
    refine ⟨fun p => ?_, by rw [hnext, hf]; rfl⟩
    have := List.find?_eq_none.mp hf p (mem_prayerOrder p)
    simpa using this
  | some q =>
    left
    have hq : prayerSelectable prayerTimes currentTime q = true :=
      List.find?_some hf
    have hnq : (updateNextPrayer prayerTimes currentTime).next = q := by
      rw [hnext, hf]; rfl
    rw [hnq]
    unfold prayerSelectable at hq
    cases hs : prayerTimes q with
    | none => rw [hs] at hq; exact absurd hq (by simp)
    | some s =>
      rw [hs] at hq
      have hq2 : (if s = "" then false
          else
            match parseMinutes s with
            | some v => decide (currentTime < v)
            | none => false) = true := hq
      by_cases hemp : s = ""
      · rw [if_pos hemp] at hq2; exact absurd hq2 (by simp)
      · rw [if_neg hemp] at hq2
        cases hp : parseMinutes s with
        | none => rw [hp] at hq2; exact absurd hq2 (by simp)
        | some v =>
          rw [hp] at hq2
          exact ⟨s, v, rfl, hp, of_decide_eq_true hq2⟩

/-- Claim C3: for a well-formed schedule (all six formatted entries present,
strictly increasing times), one minute before prayer P the resolver selects
next = P, and at exactly P's time the strict greater-than comparison passes
over P, so next is the prayer after P in the fixed order, wrapping to fajr
after isha. -/
theorem claim_C3_tiebreak (times : PrayerId → Nat × Nat)
    (hwf : WellFormedStrict times) (p : PrayerId) :
    (0 < minutesOf (times p) →
      (updateNextPrayer (schedOf times) (minutesOf (times p) - 1)).next = p) ∧
    (updateNextPrayer (schedOf times) (minutesOf (times p))).next =
      cyclicSucc p := by
  obtain ⟨hb, h1, h2, h3, h4, h5⟩ := hwf
  have key : ∀ t, (updateNextPrayer (schedOf times) t).next =
      (if t < minutesOf (times fajr) then some fajr
       else if t < minutesOf (times sunrise) then some sunrise
       else if t < minutesOf (times dhuhr) then some dhuhr
       else if t < minutesOf (times asr) then some asr
       else if t < minutesOf (times maghrib) then some maghrib
       else if t < minutesOf (times isha) then some isha
       else none).getD fajr := by
    intro t
    have : (updateNextPrayer (schedOf times) t).next =
        (prayerOrder.find? (prayerSelectable (schedOf times) t)).getD fajr := rfl
    rw [this, find_next_schedOf times hb t]
  cases p <;>
    refine ⟨fun hp => ?_, ?_⟩ <;>
    rw [key] <;>
    split_ifs <;>
    first
      | rfl
      | omega

/-- Witness for C3 at the sample schedule and P = dhuhr (12:00): at 11:59 the
resolver selects dhuhr; at exactly 12:00 it selects asr. -/
theorem claim_C3_tiebreak_witness :
    WellFormedStrict sampleTimes ∧
    (updateNextPrayer (schedOf sampleTimes)
      (minutesOf (sampleTimes dhuhr) - 1)).next = dhuhr ∧
    (updateNextPrayer (schedOf sampleTimes)
      (minutesOf (sampleTimes dhuhr))).next = cyclicSucc dhuhr :=
  ⟨by unfold WellFormedStrict Bounded; decide,
   (claim_C3_tiebreak sampleTimes (by unfold WellFormedStrict Bounded; decide)
     dhuhr).1 (by decide),
   (claim_C3_tiebreak sampleTimes (by unfold WellFormedStrict Bounded; decide)
     dhuhr).2⟩

/-- Claim C4: for a well-formed schedule (all six entries present,
non-decreasing), a current time strictly before fajr resolves to next = fajr
with current = isha, and a current time strictly after isha also resolves to
next = fajr (day wraparound) with current = isha. -/
theorem claim_C4_wraparound (times : PrayerId → Nat × Nat)
    (hwf : WellFormedMono times) (t : Nat) :
    (t < minutesOf (times fajr) →
      updateNextPrayer (schedOf times) t = ⟨fajr, isha⟩) ∧
    (minutesOf (times isha) < t →
      updateNextPrayer (schedOf times) t = ⟨fajr, isha⟩) := by
  obtain ⟨hb, h1, h2, h3, h4, h5⟩ := hwf
  have key : ∀ u, updateNextPrayer (schedOf times) u =
      { next := ((if u < minutesOf (times fajr) then some fajr
           else if u < minutesOf (times sunrise) then some sunrise
           else if u < minutesOf (times dhuhr) then some dhuhr
           else if u < minutesOf (times asr) then some asr
           else if u < minutesOf (times maghrib) then some maghrib
           else if u < minutesOf (times isha) then some isha
           else none).getD fajr)
        current := currentFromNext
          (((if u < minutesOf (times fajr) then some fajr
           else if u < minutesOf (times sunrise) then some sunrise
           else if u < minutesOf (times dhuhr) then some dhuhr
           else if u < minutesOf (times asr) then some asr
           else if u < minutesOf (times maghrib) then some maghrib
           else if u < minutesOf (times isha) then some isha
           else none).getD fajr)) } := by
    intro u
    unfold updateNextPrayer nextPrayerOf
    rw [find_next_schedOf times hb u]
  constructor
  · intro ht
    rw [key t, if_pos ht]
    rfl
  · intro ht
    rw [key t]
    split_ifs <;> first | rfl | omega

/-- Witness for C4 at the sample schedule: 01:40 (before fajr 05:00) and
20:00 (after isha 19:30) both resolve to next fajr, current isha. -/
theorem claim_C4_wraparound_witness :
    WellFormedMono sampleTimes ∧
    updateNextPrayer (schedOf sampleTimes) 100 = ⟨fajr, isha⟩ ∧
    updateNextPrayer (schedOf sampleTimes) 1200 = ⟨fajr, isha⟩ :=
  ⟨by unfold WellFormedMono Bounded; decide,
   (claim_C4_wraparound sampleTimes
     (by unfold WellFormedMono Bounded; decide) 100).1 (by decide),
   (claim_C4_wraparound sampleTimes
     (by unfold WellFormedMono Bounded; decide) 1200).2 (by decide)⟩

/-- The successful branch of `updateCountdown`: a present, non-empty entry
whose hour and minute parse yields the formatted wrapped remaining time,
a true return value, and the athan condition of the monolithic source. -/
theorem updateCountdown_parsed (sched : PrayerId → Option String)
    (np : PrayerId) (s : String) (h m nowH nowM nowS : Nat) (audio : Bool)
    (hs : sched np = some s) (hne : s ≠ "")
    (hp : parseClockInt s = some (h, m)) :
    updateCountdown sched (some np) nowH nowM nowS audio =
      { display := some (formatTimeRemaining
          (remainingSeconds ((h : Int) * 3600 + (m : Int) * 60)
            ((nowH : Int) * 3600 + (nowM : Int) * 60 + (nowS : Int))).toNat)
        success := true
        athan := (decide (remainingSeconds ((h : Int) * 3600 + (m : Int) * 60)
            ((nowH : Int) * 3600 + (nowM : Int) * 60 + (nowS : Int)) ≤ 60) &&
          decide (0 < remainingSeconds ((h : Int) * 3600 + (m : Int) * 60)
            ((nowH : Int) * 3600 + (nowM : Int) * 60 + (nowS : Int)))) &&
          audio } := by
  simp only [updateCountdown, hs, if_neg hne, hp]

/-- Claim C6: each tick computes the remaining seconds as target seconds
since midnight minus current seconds since midnight, adds 86400 when
negative, and displays the zero-padded result; the tick succeeds. -/
theorem claim_C6_wrap (sched : PrayerId → Option String) (np : PrayerId)
    (h m nowH nowM nowS : Nat) (audio : Bool)
    (hs : sched np = some (formatTime h m)) (hh : h < 24) (hm : m < 60) :
    (updateCountdown sched (some np) nowH nowM nowS audio).display =
      some (formatTimeRemaining
        (remainingSeconds ((h : Int) * 3600 + (m : Int) * 60)
          ((nowH : Int) * 3600 + (nowM : Int) * 60 + (nowS : Int))).toNat) ∧
    (updateCountdown sched (some np) nowH nowM nowS audio).success = true := by
  rw [updateCountdown_parsed sched np (formatTime h m) h m nowH nowM nowS audio
    hs (formatTime_ne_empty hh hm) (parseClockInt_formatTime hh hm)]
  exact ⟨rfl, rfl⟩

/-- Witness for C6: target 00:05, current 23:58:00, remaining 420 seconds,
displayed as 00:07:00. -/
theorem claim_C6_wrap_witness :
    sched0005 fajr = some (formatTime 0 5) ∧
    remainingSeconds ((0 : Int) * 3600 + (5 : Int) * 60)
      ((23 : Int) * 3600 + (58 : Int) * 60 + (0 : Int)) = 420 ∧
    (updateCountdown sched0005 (some fajr) 23 58 0 false).display =
      some "00:07:00" ∧
    (updateCountdown sched0005 (some fajr) 23 58 0 false).success = true := by
  refine ⟨rfl, by decide, ?_,
    (claim_C6_wrap sched0005 fajr 0 5 23 58 0 false rfl (by decide)
      (by decide)).2⟩
  rw [(claim_C6_wrap sched0005 fajr 0 5 23 58 0 false rfl (by decide)
    (by decide)).1]
  decide

/-- Claim C9: for every parseable target time with hour 0-23 and minute 0-59
and every real clock reading, the wrapped remaining value the tick passes to
the HH:MM:SS formatter is non-negative, indeed within 0..86399, so the
formatter's undefined negative-input case is unreachable from this call
site. -/
theorem claim_C9_formatter_safe (sched : PrayerId → Option String)
    (np : PrayerId) (s : String) (h m nowH nowM nowS : Nat) (audio : Bool)
    (hs : sched np = some s) (hp : parseClockInt s = some (h, m))
    (hh : h ≤ 23) (hm : m ≤ 59)
    (hH : nowH ≤ 23) (hM : nowM ≤ 59) (hS : nowS ≤ 59) :
    0 ≤ remainingSeconds ((h : Int) * 3600 + (m : Int) * 60)
      ((nowH : Int) * 3600 + (nowM : Int) * 60 + (nowS : Int)) ∧
    remainingSeconds ((h : Int) * 3600 + (m : Int) * 60)
      ((nowH : Int) * 3600 + (nowM : Int) * 60 + (nowS : Int)) ≤ 86399 ∧
    (updateCountdown sched (some np) nowH nowM nowS audio).display =
      some (formatTimeRemaining
        (remainingSeconds ((h : Int) * 3600 + (m : Int) * 60)
          ((nowH : Int) * 3600 + (nowM : Int) * 60 + (nowS : Int))).toNat) := by
  have hne : s ≠ "" := by
    intro e
    rw [e] at hp
    exact Option.noConfusion hp
  refine ⟨?_, ?_, ?_⟩
  · unfold remainingSeconds
    simp only []
    split_ifs <;> omega
  · unfold remainingSeconds
    simp only []
    split_ifs <;> omega
  · rw [updateCountdown_parsed sched np s h m nowH nowM nowS audio hs hne hp]

/-- Witness for C9 at target 00:05 and clock 23:58:00. -/
theorem claim_C9_formatter_safe_witness :
    sched0005 fajr = some (formatTime 0 5) ∧
    parseClockInt (formatTime 0 5) = some (0, 5) ∧
    0 ≤ remainingSeconds ((0 : Int) * 3600 + (5 : Int) * 60)
      ((23 : Int) * 3600 + (58 : Int) * 60 + (0 : Int)) ∧
    remainingSeconds ((0 : Int) * 3600 + (5 : Int) * 60)
      ((23 : Int) * 3600 + (58 : Int) * 60 + (0 : Int)) ≤ 86399 :=
  ⟨rfl, by decide,
   (claim_C9_formatter_safe sched0005 fajr (formatTime 0 5) 0 5 23 58 0 false
     rfl (by decide) (by decide) (by decide) (by decide) (by decide)
     (by decide)).1,
   (claim_C9_formatter_safe sched0005 fajr (formatTime 0 5) 0 5 23 58 0 false
     rfl (by decide) (by decide) (by decide) (by decide) (by decide)
     (by decide)).2.1⟩

/-- Claim C2 counterexample: with an entry whose hour and minute fields do
not parse as numbers, the tick returns false but does NOT set the countdown
display to the sentinel, contradicting the claim that the sentinel is
emitted in the unparseable case as well. -/
theorem claim_C2_counterexample :
    badSched isha = some "xx:yy م" ∧
    (updateCountdown badSched (some isha) 10 0 0 false).success = false ∧
    (updateCountdown badSched (some isha) 10 0 0 false).display = none ∧
    (updateCountdown badSched (some isha) 10 0 0 false).display ≠
      some "--:--:--" := by decide

/-- Claim C2 as amended: the tick never throws; a missing next prayer or a
missing entry writes the sentinel `--:--:--` and returns false, while a
non-empty entry whose hour or minute fails to parse returns false without
writing the display at all (the previous text is left standing). -/
theorem claim_C2_no_throw (sched : PrayerId → Option String) (np : PrayerId)
    (nowH nowM nowS : Nat) (audio : Bool) :
    updateCountdown sched none nowH nowM nowS audio = sentinelTick ∧
    (sched np = none →
      updateCountdown sched (some np) nowH nowM nowS audio = sentinelTick) ∧
    (∀ s, sched np = some s → s ≠ "" → parseClockInt s = none →
      updateCountdown sched (some np) nowH nowM nowS audio =
        { display := none, success := false, athan := false }) := by
  refine ⟨rfl, fun hmiss => ?_, fun s hs hne hp => ?_⟩
  · simp only [updateCountdown, hmiss]
  · simp only [updateCountdown, hs, if_neg hne, hp]

/-- Witness for the amended C2 on a concrete unparseable entry. -/
theorem claim_C2_no_throw_witness :
    badSched isha = some "xx:yy م" ∧
    parseClockInt "xx:yy م" = none ∧
    updateCountdown badSched (some isha) 10 0 0 false =
      { display := none, success := false, athan := false } :=
  ⟨by decide, by decide,
   (claim_C2_no_throw badSched isha 10 0 0 false).2.2 "xx:yy م" (by decide)
     (by decide) (by decide)⟩

/-- Claim C1: evaluation of the countdown tick at consecutive seconds inside
the final minute (target 01:00, audio enabled).  At remaining 61 the athan
is not played, at remaining 60 it is played; the claim says the following
ticks at remaining 59... must not re-trigger, but the code plays the athan
on every tick whose remaining time lies in (0, 60] (there is no fired-flag),
restarting the audio each second. -/
theorem claim_C1_athan_every_tick :
    (updateCountdown c1sched (some fajr) 0 58 59 true).athan = false ∧
    (updateCountdown c1sched (some fajr) 0 59 0 true).athan = true ∧
    (updateCountdown c1sched (some fajr) 0 59 1 true).athan = true ∧
    (updateCountdown c1sched (some fajr) 0 59 59 true).athan = true := by
  decide

/-- `startCountdown` preserves the single-active-timer invariant: it cancels
the held repetition (if any) before registering the new one. -/
theorem startCountdown_inv (s : TimerState) (h : TimerInv s) :
    TimerInv (startCountdown s).2 := by
  unfold TimerInv startCountdown clearIntervalOp setIntervalOp at *
  cases hh : s.handle with
  | none =>
    rw [hh] at h
    simp only [] at h
    simp [hh, h]
  | some id =>
    rw [hh] at h
    simp only [] at h
    simp [hh, h]

/-- After any number of `startCountdown` calls the invariant holds. -/
theorem runStarts_inv (n : Nat) : TimerInv (runStarts n) := by
  induction n with
  | zero => exact rfl
  | succ k ih => exact startCountdown_inv (runStarts k) ih

/-- Claim C7: starting the ticker always cancels the existing repetition
first, so after any positive number of successive starts exactly one
repeating timer is live; and every start emits one immediate tick before
registering the repetition, whose id becomes the held handle. -/
theorem claim_C7_single_timer (n : Nat) (hn : 0 < n) :
    (runStarts n).active.length = 1 ∧
    ∀ s : TimerState, ∃ id, (startCountdown s).1 =
      [TickEvent.immediateTick, TickEvent.scheduled id] ∧
      (startCountdown s).2.handle = some id := by
  constructor
  · obtain ⟨k, rfl⟩ : ∃ k, n = k + 1 := ⟨n - 1, by omega⟩
    have hinv := runStarts_inv (k + 1)
    have hh : ∃ id, (runStarts (k + 1)).handle = some id := by
      show ∃ id, (startCountdown (runStarts k)).2.handle = some id
      unfold startCountdown
      cases (runStarts k).handle <;> exact ⟨_, rfl⟩
    obtain ⟨id, hid⟩ := hh
    unfold TimerInv at hinv
    rw [hid] at hinv
    simp only [] at hinv
    rw [hinv]
    rfl
  · intro s
    unfold startCountdown
    cases hh : s.handle <;> exact ⟨_, rfl, rfl⟩

/-- Witness for C7: two starts in succession leave exactly one live
repeating timer. -/
theorem claim_C7_single_timer_witness :
    0 < 2 ∧ (runStarts 2).active.length = 1 :=
  ⟨by decide, (claim_C7_single_timer 2 (by decide)).1⟩
